import Mathlib

/-!
Shallow embedding of the `go-ad-service` repository: a CRUD service for ads
backed by a relational store (MySQL, `internal/ad/repository.go`) and a Redis
cache (`pkg/cache`), orchestrated cache-aside by the service layer
(`internal/ad/service.go`) and fronted by Gin HTTP handlers.

Modelling conventions:
* The `ads` table is a list of rows together with the `AUTO_INCREMENT`
  counter (`nextId`) and the value the server assigns to `created_at`
  (`now`, standing for `CURRENT_TIMESTAMP` at insertion time).
* The Redis cache is a finite association list from string keys to stored
  entries.  A stored entry keeps the payload and the TTL (in seconds) under
  which it was set; expiry itself is not modelled (no clock).
* The JSON serialization of an `Ad` is abstracted by `CachePayload.good ad`
  (a string that `json.Unmarshal` decodes back to `ad`; `json.Marshal` of an
  `Ad` round-trips), and `CachePayload.bad` stands for any non-empty cached
  string that fails to unmarshal into an `Ad`.
* Backend failures (Redis errors, SQL driver errors, the marshal-error
  branch) are injected through a record of fault flags, one per kind of
  fallible external call, so that theorems can quantify over failure
  scenarios.
* Every service operation additionally returns the trace of backend calls it
  performed, in order, so that ordering properties (store before cache,
  no store access on a cache hit) are statable.
-/

/-- The domain entity (`internal/ad/repository.go`, `type Ad struct`).
`price` (Go `float64`) is modelled as an integer amount: the program only
compares prices with zero and copies them verbatim, so the embedding needs
only an ordered type.  `createdAt` (Go `time.Time`) is an integer timestamp
whose value `0` stands for Go's zero `time.Time`. -/
structure Ad where
  id : Int
  title : String
  description : String
  price : Int
  createdAt : Int
  isActive : Bool
deriving DecidableEq, Repr

/-- What a non-empty cached string decodes to: `good ad` is a string that
`json.Unmarshal` decodes to `ad`; `bad` is a string that fails to decode. -/
inductive CachePayload where
  | good (ad : Ad)
  | bad
deriving DecidableEq, Repr

/-- One Redis entry: the stored payload and the TTL (seconds) it was set
under (`Cache.Set`'s `expiration` argument; the service always passes
`5*time.Minute` = 300 seconds). -/
structure CacheEntry where
  payload : CachePayload
  ttlSeconds : Nat
deriving DecidableEq, Repr

/-- The Redis keyspace: an association list from keys to entries. -/
structure CacheState where
  entries : List (String × CacheEntry)
deriving DecidableEq, Repr

/-- Look up a key in the cache state. -/
def CacheState.lookup (c : CacheState) (key : String) : Option CacheEntry :=
  (c.entries.find? (fun e => e.fst == key)).map (fun e => e.snd)

/-- Outcome of Go `Cache.Get` (pkg/cache): on a backend error it returns
`("", err)` (`fail`); on `redis.Nil` it returns `("", nil)` (`ok none`,
a miss); on a hit it returns the stored string with `nil` error
(`ok (some payload)`). -/
inductive CacheGetOut where
  | ok (payload : Option CachePayload)
  | fail
deriving DecidableEq, Repr

/-- `Cache.Get` (pkg/cache): surface the stored payload, a miss, or a
backend failure according to the injected fault flag. -/
def Cache.Get (failNow : Bool) (c : CacheState) (key : String) : CacheGetOut :=
  if failNow then CacheGetOut.fail
  else CacheGetOut.ok ((c.lookup key).map (fun e => e.payload))

/-- `Cache.Set` (pkg/cache): on a backend failure the keyspace is unchanged
(and Go returns the error, which the service ignores); otherwise the key is
bound to the payload under the given TTL. -/
def Cache.Set (failNow : Bool) (c : CacheState) (key : String)
    (p : CachePayload) (ttl : Nat) : CacheState :=
  if failNow then c
  else ⟨(key, ⟨p, ttl⟩) :: c.entries.filter (fun e => e.fst != key)⟩

/-- `Cache.Delete` (pkg/cache): on a backend failure the keyspace is
unchanged (Go returns the error, which the service ignores); otherwise the
key is removed. -/
def Cache.Delete (failNow : Bool) (c : CacheState) (key : String) : CacheState :=
  if failNow then c
  else ⟨c.entries.filter (fun e => e.fst != key)⟩

/-- State of the `ads` table: its rows, the `AUTO_INCREMENT` counter for
`id`, and the server timestamp (`CURRENT_TIMESTAMP`) that the column default
assigns to `created_at` on insertion. -/
structure DBState where
  rows : List Ad
  nextId : Int
  now : Int
deriving DecidableEq, Repr

/-- Error taxonomy of the Go code: `sqlErrNoRows` is `sql.ErrNoRows`
(returned by `Repository.GetAdByID` and passed through by the service),
`errAdNotFound` is the sentinel `ErrAdNotFound` of `repository.go`
(returned by `Repository.UpdateAd` / `Repository.DeleteAd` on zero affected
rows), and `persistence` is any wrapped driver error
(`fmt.Errorf("could not ...")`). -/
inductive Err where
  | sqlErrNoRows
  | errAdNotFound
  | persistence
deriving DecidableEq, Repr

/-- A backend call, recorded in execution order by the service layer. -/
inductive Op where
  | cacheGet (key : String)
  | cacheSet (key : String) (ttlSeconds : Nat)
  | cacheDel (key : String)
  | storeSelect (id : Int)
  | storeSelectAll
  | storeInsert
  | storeUpdate (id : Int)
  | storeDelete (id : Int)
deriving DecidableEq, Repr

/-- Whether a backend call touches the relational store. -/
def Op.isStore : Op → Bool
  | Op.storeSelect _ => true
  | Op.storeSelectAll => true
  | Op.storeInsert => true
  | Op.storeUpdate _ => true
  | Op.storeDelete _ => true
  | _ => false

/-- Whether a backend call touches the cache. -/
def Op.isCache : Op → Bool
  | Op.cacheGet _ => true
  | Op.cacheSet _ _ => true
  | Op.cacheDel _ => true
  | _ => false

/-- Injected fault flags, one per kind of fallible external call:
`dbFails` makes the SQL driver call of the current repository operation
fail, `cacheGetFails` / `cacheSetFails` / `cacheDelFails` make the
corresponding Redis call fail, and `marshalFails` exercises the
`json.Marshal` error branch of `GetAdByID` (dead in practice: marshalling
an `Ad` cannot fail in Go). -/
structure Faults where
  dbFails : Bool
  cacheGetFails : Bool
  cacheSetFails : Bool
  cacheDelFails : Bool
  marshalFails : Bool
deriving DecidableEq, Repr

/-- `Repository.GetAdByID` (repository.go): `SELECT ... WHERE id = ?`; a
driver failure yields a wrapped error, no matching row yields
`sql.ErrNoRows`, otherwise the row is returned. -/
def Repository.GetAdByID (dbFails : Bool) (db : DBState) (id : Int) :
    Except Err Ad :=
  if dbFails then Except.error Err.persistence
  else
    match db.rows.find? (fun r => r.id == id) with
    | some r => Except.ok r
    | none => Except.error Err.sqlErrNoRows

/-- The row produced by `Repository.UpdateAd`'s `UPDATE` statement for a
matching row: `title`, `description`, `price` are always overwritten; the
`is_active` column is included in the `SET` clause only when the incoming
`ad.IsActive` is true (repository.go lines 84-92). -/
def updateRow (ad : Ad) (r : Ad) : Ad :=
  { r with
    title := ad.title
    description := ad.description
    price := ad.price
    isActive := if ad.isActive then ad.isActive else r.isActive }

/-- `Repository.UpdateAd` (repository.go): `UPDATE ads SET ... WHERE id = ?`;
a driver failure yields a wrapped error; zero affected rows yields
`ErrAdNotFound`; otherwise every row matching the `WHERE` clause is
rewritten by `updateRow`.  `RowsAffected` is modelled as the number of rows
matched by the `WHERE` clause. -/
def Repository.UpdateAd (dbFails : Bool) (db : DBState) (id : Int) (ad : Ad) :
    Except Err DBState :=
  if dbFails then Except.error Err.persistence
  else if db.rows.countP (fun r => r.id == id) == 0 then
    Except.error Err.errAdNotFound
  else
    Except.ok { db with
      rows := db.rows.map (fun r => if r.id == id then updateRow ad r else r) }

/-- `Repository.DeleteAd` (repository.go): `DELETE FROM ads WHERE id = ?`;
a driver failure yields a wrapped error; zero affected rows yields
`ErrAdNotFound`; otherwise the matching rows are removed. -/
def Repository.DeleteAd (dbFails : Bool) (db : DBState) (id : Int) :
    Except Err DBState :=
  if dbFails then Except.error Err.persistence
  else if db.rows.countP (fun r => r.id == id) == 0 then
    Except.error Err.errAdNotFound
  else
    Except.ok { db with rows := db.rows.filter (fun r => r.id != id) }

/-- `Repository.AddAd` (repository.go): `INSERT INTO ads (title,
description, price, is_active) VALUES (?,?,?,?)`, then `LastInsertId` and a
`SELECT created_at` read-back; any of the three driver calls failing is
covered by `dbFails`.  On success the inserted row carries the assigned
auto-increment `id` and the server-assigned `created_at`, and the Go code
writes both back into the argument `Ad`, which we model by returning the
populated `Ad` alongside the new table state. -/
def Repository.AddAd (dbFails : Bool) (db : DBState) (ad : Ad) :
    Except Err (Ad × DBState) :=
  if dbFails then Except.error Err.persistence
  else
    let newAd := { ad with id := db.nextId, createdAt := db.now }
    Except.ok (newAd,
      { db with rows := db.rows ++ [newAd], nextId := db.nextId + 1 })

/-- Row order `a ≤ b` under `ORDER BY <sortBy> ASC` for the five sortable
columns; any other column name would make the SQL fail, but the handler
admits only these five, so the fallback is irrelevant. -/
def adLe (sortBy : String) (a b : Ad) : Bool :=
  if sortBy == "id" then decide (a.id ≤ b.id)
  else if sortBy == "title" then !(decide (b.title < a.title))
  else if sortBy == "price" then decide (a.price ≤ b.price)
  else if sortBy == "created_at" then decide (a.createdAt ≤ b.createdAt)
  else if sortBy == "is_active" then
    decide ((if a.isActive then (1 : Nat) else 0) ≤ (if b.isActive then 1 else 0))
  else true

/-- Insert one row into a list already sorted by `le`. -/
def insertSorted (le : Ad → Ad → Bool) (a : Ad) : List Ad → List Ad
  | [] => [a]
  | b :: rest => if le a b then a :: b :: rest else b :: insertSorted le a rest

/-- Stable sort of the rows by `le` (the effect of `ORDER BY`). -/
def sortAds (le : Ad → Ad → Bool) : List Ad → List Ad
  | [] => []
  | a :: rest => insertSorted le a (sortAds le rest)

/-- `Repository.GetAllAds` (repository.go): `SELECT ... ORDER BY <sortBy>
<order> LIMIT ? OFFSET ?` with `offset = (page-1)*limit`; the scanned rows
are accumulated into a slice initialised to the empty (non-nil) slice
`[]Ad{}`, so zero matching rows yield the empty list, not an error. -/
def Repository.GetAllAds (dbFails : Bool) (db : DBState)
    (page limit : Int) (sortBy order : String) : Except Err (List Ad) :=
  if dbFails then Except.error Err.persistence
  else
    let offset := (page - 1) * limit
    let le := fun a b =>
      if order == "desc" then adLe sortBy b a else adLe sortBy a b
    Except.ok (((sortAds le db.rows).drop offset.toNat).take limit.toNat)

/-- The joint backend state the service operates on: the `ads` table and
the process-wide Redis cache (`var adCache = cache.NewCache()`). -/
structure ServiceState where
  db : DBState
  cache : CacheState
deriving DecidableEq, Repr

/-- The cache key `"ad_" + strconv.Itoa(id)` used by the service. -/
def adKey (id : Int) : String := "ad_" ++ toString id

/-- The outcome of `GetAdByID`'s cache probe as the service interprets it:
`some a` exactly when `Cache.Get` returned a non-empty string with `nil`
error and that string unmarshalled into `a` (service.go lines 73-84);
everything else — backend error, miss, or unmarshal failure — is treated as
a miss. -/
def cacheHit (cacheGetFails : Bool) (c : CacheState) (key : String) :
    Option Ad :=
  match Cache.Get cacheGetFails c key with
  | CacheGetOut.ok (some (CachePayload.good a)) => some a
  | _ => none

/-- `AdService.GetAdByID` (service.go lines 65-110): probe the cache under
`adKey id`; on a deserializable hit return it with no store access; on a
miss, cache error, or unmarshal failure query the store; pass store errors
through unchanged (`sql.ErrNoRows` included); on store success marshal the
ad and, unless marshalling failed, write it back under a 300-second TTL
(`Cache.Set`'s result is ignored), then return the store's ad. -/
def AdService.GetAdByID (f : Faults) (st : ServiceState) (id : Int) :
    Except Err Ad × ServiceState × List Op :=
  let key := adKey id
  match Cache.Get f.cacheGetFails st.cache key with
  | CacheGetOut.ok (some (CachePayload.good a)) =>
      (Except.ok a, st, [Op.cacheGet key])
  | _ =>
      match Repository.GetAdByID f.dbFails st.db id with
      | Except.error e =>
          (Except.error e, st, [Op.cacheGet key, Op.storeSelect id])
      | Except.ok ad =>
          if f.marshalFails then
            (Except.ok ad, st, [Op.cacheGet key, Op.storeSelect id])
          else
            (Except.ok ad,
             { st with
               cache := Cache.Set f.cacheSetFails st.cache key
                 (CachePayload.good ad) 300 },
             [Op.cacheGet key, Op.storeSelect id, Op.cacheSet key 300])

/-- `AdService.AddAd` (service.go lines 30-44): delegate to
`Repository.AddAd`; no cache call is made. -/
def AdService.AddAd (f : Faults) (st : ServiceState) (ad : Ad) :
    Except Err Ad × ServiceState × List Op :=
  match Repository.AddAd f.dbFails st.db ad with
  | Except.error e => (Except.error e, st, [Op.storeInsert])
  | Except.ok (newAd, db2) =>
      (Except.ok newAd, { st with db := db2 }, [Op.storeInsert])

/-- `AdService.GetAllAds` (service.go lines 47-61): pure passthrough to
`Repository.GetAllAds`; no cache call is made. -/
def AdService.GetAllAds (f : Faults) (st : ServiceState)
    (page limit : Int) (sortBy order : String) :
    Except Err (List Ad) × ServiceState × List Op :=
  (Repository.GetAllAds f.dbFails st.db page limit sortBy order, st,
   [Op.storeSelectAll])

/-- `AdService.UpdateAd` (service.go lines 113-135): call
`Repository.UpdateAd` first; on any error return it (mapping
`ErrAdNotFound` to itself) without touching the cache; on success delete
the cache entry under `adKey id`, ignoring `Cache.Delete`'s result. -/
def AdService.UpdateAd (f : Faults) (st : ServiceState) (id : Int) (ad : Ad) :
    Except Err Unit × ServiceState × List Op :=
  match Repository.UpdateAd f.dbFails st.db id ad with
  | Except.error e =>
      if e == Err.errAdNotFound then
        (Except.error Err.errAdNotFound, st, [Op.storeUpdate id])
      else
        (Except.error e, st, [Op.storeUpdate id])
  | Except.ok db2 =>
      (Except.ok (),
       { db := db2, cache := Cache.Delete f.cacheDelFails st.cache (adKey id) },
       [Op.storeUpdate id, Op.cacheDel (adKey id)])

/-- `AdService.DeleteAd` (service.go lines 138-160): call
`Repository.DeleteAd` first; on any error return it without touching the
cache; on success delete the cache entry under `adKey id`, ignoring
`Cache.Delete`'s result. -/
def AdService.DeleteAd (f : Faults) (st : ServiceState) (id : Int) :
    Except Err Unit × ServiceState × List Op :=
  match Repository.DeleteAd f.dbFails st.db id with
  | Except.error e =>
      if e == Err.errAdNotFound then
        (Except.error Err.errAdNotFound, st, [Op.storeDelete id])
      else
        (Except.error e, st, [Op.storeDelete id])
  | Except.ok db2 =>
      (Except.ok (),
       { db := db2, cache := Cache.Delete f.cacheDelFails st.cache (adKey id) },
       [Op.storeDelete id, Op.cacheDel (adKey id)])

/-- The set of `sort_by` values the handler admits
(`validSortFields` in the handler file). -/
def validSortField (s : String) : Bool :=
  s == "id" || s == "title" || s == "price" || s == "created_at" ||
    s == "is_active"

/-- `Handler.GetAdByID`: the `:id` URL parameter arrives as the result of
`strconv.Atoi` (`none` on a parse error); a parse error or a non-positive
id is rejected with 400 before the service is called; otherwise the service
result is mapped to 200, `sql.ErrNoRows` to 404, and any other error to
500.  The returned triple is the HTTP status, the backend state after the
request, and the trace of backend calls made. -/
def Handler.GetAdByID (f : Faults) (st : ServiceState)
    (idParam : Option Int) : Nat × ServiceState × List Op :=
  match idParam with
  | none => (400, st, [])
  | some id =>
      if id ≤ 0 then (400, st, [])
      else
        match AdService.GetAdByID f st id with
        | (Except.ok _, st2, tr) => (200, st2, tr)
        | (Except.error Err.sqlErrNoRows, st2, tr) => (404, st2, tr)
        | (Except.error _, st2, tr) => (500, st2, tr)

/-- `Handler.GetAllAds`: `page` and `limit` arrive as `strconv.Atoi`
results of the query parameters (after `DefaultQuery` substituted "1" and
"10" for missing ones); a parse failure or non-positive value is rejected
with 400, then `sort_by` must be one of the five allowed columns and
`order` one of `asc`/`desc`; only then is the service called, whose error
is mapped to 500 and whose success to 200. -/
def Handler.GetAllAds (f : Faults) (st : ServiceState)
    (pageParam limitParam : Option Int) (sortBy order : String) :
    Nat × ServiceState × List Op :=
  match pageParam with
  | none => (400, st, [])
  | some page =>
      if page ≤ 0 then (400, st, [])
      else
        match limitParam with
        | none => (400, st, [])
        | some limit =>
            if limit ≤ 0 then (400, st, [])
            else if !(validSortField sortBy) then (400, st, [])
            else if !(order == "asc" || order == "desc") then (400, st, [])
            else
              match AdService.GetAllAds f st page limit sortBy order with
              | (Except.ok _, st2, tr) => (200, st2, tr)
              | (Except.error _, st2, tr) => (500, st2, tr)

/-- `Handler.UpdateAd`: the `:id` parameter is validated as in
`Handler.GetAdByID`; the body arrives as the result of `ShouldBindJSON`
(`none` on a bind error, rejected with 400); an empty title or description
and a non-positive price are rejected with 400; only then is the service
called, whose `ErrAdNotFound` is mapped to 404, any other error to 500,
and success to 200. -/
def Handler.UpdateAd (f : Faults) (st : ServiceState)
    (idParam : Option Int) (body : Option Ad) :
    Nat × ServiceState × List Op :=
  match idParam with
  | none => (400, st, [])
  | some id =>
      if id ≤ 0 then (400, st, [])
      else
        match body with
        | none => (400, st, [])
        | some ad =>
            if ad.title == "" || ad.description == "" then (400, st, [])
            else if ad.price ≤ 0 then (400, st, [])
            else
              match AdService.UpdateAd f st id ad with
              | (Except.ok _, st2, tr) => (200, st2, tr)
              | (Except.error Err.errAdNotFound, st2, tr) => (404, st2, tr)
              | (Except.error _, st2, tr) => (500, st2, tr)

/-- A concrete ad used to instantiate the theorems below. -/
def sampleAd : Ad :=
  { id := 1, title := "Laptop", description := "x", price := 1200,
    createdAt := 7, isActive := true }

/-- A second concrete ad, used as an update payload or create input. -/
def sampleAd2 : Ad :=
  { id := 0, title := "Laptop v2", description := "y", price := 999,
    createdAt := 0, isActive := false }

/-- A backend state whose store holds `sampleAd` and whose cache is empty. -/
def sampleState : ServiceState :=
  { db := { rows := [sampleAd], nextId := 2, now := 7 }, cache := ⟨[]⟩ }

/-- A backend state with an empty store and an empty cache. -/
def emptyState : ServiceState :=
  { db := { rows := [], nextId := 1, now := 7 }, cache := ⟨[]⟩ }

/-- A backend state with an empty store but a stale, deserializable cache
entry under key `ad_1` (the state a failed invalidation leaves behind). -/
def staleState : ServiceState :=
  { db := { rows := [], nextId := 2, now := 7 },
    cache := ⟨[("ad_1", ⟨CachePayload.good sampleAd, 300⟩)]⟩ }

/-- All backend calls succeed. -/
def noFaults : Faults :=
  { dbFails := false, cacheGetFails := false, cacheSetFails := false,
    cacheDelFails := false, marshalFails := false }

/-- Every cache call fails; the store works. -/
def cacheDown : Faults :=
  { dbFails := false, cacheGetFails := true, cacheSetFails := true,
    cacheDelFails := true, marshalFails := false }

/-- On a cache probe the service interprets as a miss, `GetAdByID` behaves
as the store-backed fallback path, whatever the reason for the miss
(backend error, absent key, or undeserializable payload). -/
theorem getAdByID_miss_eq (f : Faults) (st : ServiceState) (id : Int)
    (h : cacheHit f.cacheGetFails st.cache (adKey id) = none) :
    AdService.GetAdByID f st id =
      match Repository.GetAdByID f.dbFails st.db id with
      | Except.error e =>
          (Except.error e, st, [Op.cacheGet (adKey id), Op.storeSelect id])
      | Except.ok ad =>
          if f.marshalFails then
            (Except.ok ad, st, [Op.cacheGet (adKey id), Op.storeSelect id])
          else
            (Except.ok ad,
             { st with cache := (Cache.Set f.cacheSetFails st.cache (adKey id)
                 (CachePayload.good ad) 300) },
             [Op.cacheGet (adKey id), Op.storeSelect id,
              Op.cacheSet (adKey id) 300]) := by
  unfold cacheHit at h
  unfold AdService.GetAdByID
  cases hc : Cache.Get f.cacheGetFails st.cache (adKey id) with
  | ok p =>
      cases p with
      | none => simp [hc]
      | some pay =>
          cases pay with
          | good a => rw [hc] at h; simp at h
          | bad => simp [hc]
  | fail => simp [hc]

/-- On a cache probe the service interprets as a deserializable hit,
`GetAdByID` returns the cached ad at once, with the cache probe as its only
backend call and the backend state untouched. -/
theorem getAdByID_hit_eq (f : Faults) (st : ServiceState) (id : Int) (a : Ad)
    (h : cacheHit f.cacheGetFails st.cache (adKey id) = some a) :
    AdService.GetAdByID f st id = (Except.ok a, st, [Op.cacheGet (adKey id)]) := by
  unfold cacheHit at h
  unfold AdService.GetAdByID
  cases hc : Cache.Get f.cacheGetFails st.cache (adKey id) with
  | ok p =>
      cases p with
      | none => rw [hc] at h; simp at h
      | some pay =>
          cases pay with
          | good b =>
              rw [hc] at h
              simp at h
              subst h
              simp [hc]
          | bad => rw [hc] at h; simp at h
  | fail => rw [hc] at h; simp at h

/-- C1: for every id present in the store, `Get(id)` succeeds and returns
the store's record even when every cache operation fails — a failed cache
lookup, an undeserializable cached value, or a failed cache write after the
store read all leave the result equal to the store's record. -/
theorem getAdByID_storeBacked_survives_cache_failures
    (f : Faults) (st : ServiceState) (id : Int) (r : Ad)
    (hdb : f.dbFails = false)
    (hrow : st.db.rows.find? (fun x => x.id == id) = some r)
    (hmiss : cacheHit f.cacheGetFails st.cache (adKey id) = none) :
    (AdService.GetAdByID f st id).1 = Except.ok r := by
  rw [getAdByID_miss_eq f st id hmiss]
  simp [Repository.GetAdByID, hdb, hrow]
  cases f.marshalFails <;> simp

/-- Witness for C1: the concrete store-backed id 1 with every cache call
failing still yields the stored ad. -/
theorem getAdByID_storeBacked_survives_cache_failures_witness :
    (AdService.GetAdByID cacheDown sampleState 1).1 = Except.ok sampleAd :=
  getAdByID_storeBacked_survives_cache_failures cacheDown sampleState 1
    sampleAd rfl rfl rfl

/-- C2: `Get(id)` is cache-aside: every run probes the cache under
`ad_<id>` first; a deserializable hit is returned at once with no store
access and no state change; on a miss (including a cache backend error and
an undeserializable payload) the store is queried and its error passed
through; on store success the serialized ad is written back under the key
with a 300-second (5-minute) TTL before the store's ad is returned. -/
theorem getAdByID_cache_aside (f : Faults) (st : ServiceState) (id : Int) :
    ((AdService.GetAdByID f st id).2.2.head? = some (Op.cacheGet (adKey id))) ∧
    (∀ a, cacheHit f.cacheGetFails st.cache (adKey id) = some a →
        AdService.GetAdByID f st id =
          (Except.ok a, st, [Op.cacheGet (adKey id)])) ∧
    (cacheHit f.cacheGetFails st.cache (adKey id) = none →
      ∀ e, Repository.GetAdByID f.dbFails st.db id = Except.error e →
        AdService.GetAdByID f st id =
          (Except.error e, st, [Op.cacheGet (adKey id), Op.storeSelect id])) ∧
    (cacheHit f.cacheGetFails st.cache (adKey id) = none →
      f.marshalFails = false →
      ∀ ad, Repository.GetAdByID f.dbFails st.db id = Except.ok ad →
        AdService.GetAdByID f st id =
          (Except.ok ad,
           { st with cache := (Cache.Set f.cacheSetFails st.cache (adKey id)
               (CachePayload.good ad) 300) },
           [Op.cacheGet (adKey id), Op.storeSelect id,
            Op.cacheSet (adKey id) 300])) := by
  refine ⟨?_, ?_, ?_, ?_⟩
  · cases hh : cacheHit f.cacheGetFails st.cache (adKey id) with
    | none =>
        rw [getAdByID_miss_eq f st id hh]
        cases hr : Repository.GetAdByID f.dbFails st.db id with
        | error e => simp
        | ok ad => cases hm : f.marshalFails <;> simp [hm]
    | some a => rw [getAdByID_hit_eq f st id a hh]; simp
  · intro a hh
    exact getAdByID_hit_eq f st id a hh
  · intro hh e hr
    rw [getAdByID_miss_eq f st id hh, hr]
  · intro hh hm ad hr
    rw [getAdByID_miss_eq f st id hh, hr]
    simp [hm]

/-- Witness for C2: in the concrete stale state, the deserializable cached
entry under `ad_1` is returned directly with the cache probe as the only
backend call; and from the concrete empty cache with the store holding the
row, the ad is fetched from the store and written back under TTL 300. -/
theorem getAdByID_cache_aside_witness :
    (AdService.GetAdByID noFaults staleState 1 =
      (Except.ok sampleAd, staleState, [Op.cacheGet (adKey 1)])) ∧
    (AdService.GetAdByID noFaults sampleState 1 =
      (Except.ok sampleAd,
       { sampleState with cache := (Cache.Set false sampleState.cache (adKey 1)
           (CachePayload.good sampleAd) 300) },
       [Op.cacheGet (adKey 1), Op.storeSelect 1, Op.cacheSet (adKey 1) 300])) :=
  ⟨(getAdByID_cache_aside noFaults staleState 1).2.1 sampleAd rfl,
   (getAdByID_cache_aside noFaults sampleState 1).2.2.2 rfl rfl sampleAd rfl⟩

/-- C3: for `Update(id, ad)` and `Delete(id)` the store is written before
the cache is touched: on store success the trace is the store write
followed by the cache-entry deletion and the operation reports success
whether or not the cache deletion fails; on a store error the error is
returned with the backend state unchanged and no cache call at all; the
returned result never depends on the cache-deletion fault. -/
theorem mutations_store_before_cache (f : Faults) (st : ServiceState)
    (id : Int) (ad : Ad) :
    ((∀ db2, Repository.UpdateAd f.dbFails st.db id ad = Except.ok db2 →
        AdService.UpdateAd f st id ad =
          (Except.ok (),
           { db := db2,
             cache := Cache.Delete f.cacheDelFails st.cache (adKey id) },
           [Op.storeUpdate id, Op.cacheDel (adKey id)])) ∧
     (∀ e, Repository.UpdateAd f.dbFails st.db id ad = Except.error e →
        AdService.UpdateAd f st id ad =
          (Except.error e, st, [Op.storeUpdate id])) ∧
     ((AdService.UpdateAd f st id ad).1 =
        (AdService.UpdateAd { f with cacheDelFails := true } st id ad).1)) ∧
    ((∀ db2, Repository.DeleteAd f.dbFails st.db id = Except.ok db2 →
        AdService.DeleteAd f st id =
          (Except.ok (),
           { db := db2,
             cache := Cache.Delete f.cacheDelFails st.cache (adKey id) },
           [Op.storeDelete id, Op.cacheDel (adKey id)])) ∧
     (∀ e, Repository.DeleteAd f.dbFails st.db id = Except.error e →
        AdService.DeleteAd f st id =
          (Except.error e, st, [Op.storeDelete id])) ∧
     ((AdService.DeleteAd f st id).1 =
        (AdService.DeleteAd { f with cacheDelFails := true } st id).1)) := by
  refine ⟨⟨?_, ?_, ?_⟩, ⟨?_, ?_, ?_⟩⟩
  · intro db2 hr
    unfold AdService.UpdateAd
    rw [hr]
  · intro e hr
    unfold AdService.UpdateAd
    rw [hr]
    cases e <;> simp
  · unfold AdService.UpdateAd
    cases hr : Repository.UpdateAd f.dbFails st.db id ad with
    | error e => cases e <;> simp
    | ok db2 => simp
  · intro db2 hr
    unfold AdService.DeleteAd
    rw [hr]
  · intro e hr
    unfold AdService.DeleteAd
    rw [hr]
    cases e <;> simp
  · unfold AdService.DeleteAd
    cases hr : Repository.DeleteAd f.dbFails st.db id with
    | error e => cases e <;> simp
    | ok db2 => simp

/-- Witness for C3: in the concrete one-row store with every cache call
failing, `Update(1, sampleAd2)` still succeeds, writes the store first and
then attempts the cache-entry deletion, leaving the (empty) cache as the
failed deletion left it. -/
theorem mutations_store_before_cache_witness :
    AdService.UpdateAd cacheDown sampleState 1 sampleAd2 =
      (Except.ok (),
       { db := { rows := [updateRow sampleAd2 sampleAd], nextId := 2, now := 7 },
         cache := Cache.Delete true sampleState.cache (adKey 1) },
       [Op.storeUpdate 1, Op.cacheDel (adKey 1)]) :=
  (mutations_store_before_cache cacheDown sampleState 1 sampleAd2).1.1
    { rows := [updateRow sampleAd2 sampleAd], nextId := 2, now := 7 } rfl

/-- C4 as frozen is refuted by the code: with the store empty but a stale
deserializable cache entry under `ad_1` (the state a failed invalidation
leaves behind), `Get(1)` returns the cached ad instead of failing with
`sql.ErrNoRows`, so "NotFound regardless of cache state" does not hold. -/
theorem getAdByID_notFound_counterexample :
    staleState.db.rows = [] ∧
    (AdService.GetAdByID noFaults staleState 1).1 = Except.ok sampleAd ∧
    Except.ok sampleAd ≠ (Except.error Err.sqlErrNoRows : Except Err Ad) :=
  ⟨rfl, rfl, fun h => Except.noConfusion h⟩

/-- C4 (amended): for every id whose cache probe yields no deserializable
hit, a store not-found makes `Get(id)` fail with `sql.ErrNoRows`, nothing
is written to the cache, and the backend state is unchanged — so with the
cache empty, unavailable, or undeserializable for the key, `Get` of a
nonexistent id always fails with NotFound. -/
theorem getAdByID_notFound_no_negative_caching
    (f : Faults) (st : ServiceState) (id : Int)
    (hdb : f.dbFails = false)
    (hmiss : cacheHit f.cacheGetFails st.cache (adKey id) = none)
    (hnone : st.db.rows.find? (fun r => r.id == id) = none) :
    AdService.GetAdByID f st id =
      (Except.error Err.sqlErrNoRows, st,
       [Op.cacheGet (adKey id), Op.storeSelect id]) := by
  rw [getAdByID_miss_eq f st id hmiss]
  simp [Repository.GetAdByID, hdb, hnone]

/-- Witness for amended C4: with empty store and empty cache, `Get(1)`
fails with `sql.ErrNoRows` and writes nothing. -/
theorem getAdByID_notFound_no_negative_caching_witness :
    AdService.GetAdByID noFaults emptyState 1 =
      (Except.error Err.sqlErrNoRows, emptyState,
       [Op.cacheGet (adKey 1), Op.storeSelect 1]) :=
  getAdByID_notFound_no_negative_caching noFaults emptyState 1 rfl rfl rfl

/-- Appending a fresh row to a table in which no row satisfies the
predicate makes `find?` return exactly that row. -/
theorem find?_append_singleton {α : Type} (p : α → Bool) (l : List α) (a : α)
    (hl : ∀ x ∈ l, p x = false) (ha : p a = true) :
    (l ++ [a]).find? p = some a := by
  rw [List.find?_append]
  have hnone : l.find? p = none :=
    List.find?_eq_none.mpr (by intro x hx; simp [hl x hx])
  rw [hnone]
  simp [List.find?, ha]

/-- C5: a successful `Create` followed by `Get` of the assigned id returns
an ad equal to the input in every field except `id` and `createdAt`, which
the store assigns (with `createdAt` the server timestamp, non-zero), and
`Create` itself performs no cache call and leaves the cache untouched. -/
theorem create_then_get_roundtrip (f : Faults) (st : ServiceState) (ad : Ad)
    (hdb : f.dbFails = false)
    (hfresh : ∀ r ∈ st.db.rows, r.id < st.db.nextId)
    (hnow : st.db.now ≠ 0)
    (hmiss : cacheHit f.cacheGetFails st.cache (adKey st.db.nextId) = none) :
    ∃ newAd st2,
      AdService.AddAd f st ad = (Except.ok newAd, st2, [Op.storeInsert]) ∧
      st2.cache = st.cache ∧
      newAd.title = ad.title ∧ newAd.description = ad.description ∧
      newAd.price = ad.price ∧ newAd.isActive = ad.isActive ∧
      newAd.createdAt ≠ 0 ∧ newAd.id = st.db.nextId ∧
      (AdService.GetAdByID f st2 newAd.id).1 = Except.ok newAd := by
  set newAd : Ad := { ad with id := st.db.nextId, createdAt := st.db.now }
    with hnew
  set st2 : ServiceState :=
    { db := ⟨st.db.rows ++ [newAd], st.db.nextId + 1, st.db.now⟩,
      cache := st.cache } with hst2
  have hadd : AdService.AddAd f st ad = (Except.ok newAd, st2, [Op.storeInsert]) := by
    unfold AdService.AddAd Repository.AddAd
    simp [hdb, hnew, hst2]
  have hfind : (st.db.rows ++ [newAd]).find? (fun r => r.id == st.db.nextId)
      = some newAd := by
    refine find?_append_singleton _ _ _ ?_ ?_
    · intro x hx
      exact beq_eq_false_iff_ne.mpr (ne_of_lt (hfresh x hx))
    · simp [hnew]
  have hrepo : Repository.GetAdByID f.dbFails st2.db st.db.nextId
      = Except.ok newAd := by
    unfold Repository.GetAdByID
    simp [hdb, hst2, hfind]
  have hget : (AdService.GetAdByID f st2 st.db.nextId).1 = Except.ok newAd := by
    rw [getAdByID_miss_eq f st2 st.db.nextId hmiss]
    rw [hrepo]
    cases hm : f.marshalFails <;> simp [hm]
  exact ⟨newAd, st2, hadd, rfl, rfl, rfl, rfl, rfl, hnow, rfl, hget⟩

/-- Witness for C5: creating `sampleAd2` in the concrete empty backend and
reading the assigned id back returns the stored ad, with a non-zero
server-assigned timestamp and the cache untouched by the create. -/
theorem create_then_get_roundtrip_witness :
    ∃ newAd st2,
      AdService.AddAd noFaults emptyState sampleAd2 =
        (Except.ok newAd, st2, [Op.storeInsert]) ∧
      st2.cache = emptyState.cache ∧
      newAd.title = sampleAd2.title ∧ newAd.description = sampleAd2.description ∧
      newAd.price = sampleAd2.price ∧ newAd.isActive = sampleAd2.isActive ∧
      newAd.createdAt ≠ 0 ∧ newAd.id = emptyState.db.nextId ∧
      (AdService.GetAdByID noFaults st2 newAd.id).1 = Except.ok newAd :=
  create_then_get_roundtrip noFaults emptyState sampleAd2 rfl
    (by intro r hr; cases hr) (by decide) rfl

/-- Mapping a function over a list relates each element to its image. -/
theorem forall₂_map_self {α : Type} (R : α → α → Prop) (g : α → α)
    (l : List α) (h : ∀ a ∈ l, R a (g a)) : List.Forall₂ R l (l.map g) := by
  induction l with
  | nil => exact List.Forall₂.nil
  | cons a rest ih =>
      exact List.Forall₂.cons (h a (by simp))
        (ih (fun b hb => h b (by simp [hb])))

/-- C6: a successful `Update(id, ad)` rewrites every row matching the id so
that `title`, `description`, `price` take the incoming values, `is_active`
takes the incoming value only when it is true (an update with
`isActive = false` leaves the stored flag unchanged), and `id` and
`created_at` are never changed; rows with a different id are untouched. -/
theorem update_field_semantics (db : DBState) (id : Int) (ad : Ad)
    (db2 : DBState)
    (h : Repository.UpdateAd false db id ad = Except.ok db2) :
    List.Forall₂ (fun r0 r1 =>
      r1.id = r0.id ∧ r1.createdAt = r0.createdAt ∧
      (r0.id = id →
        r1.title = ad.title ∧ r1.description = ad.description ∧
        r1.price = ad.price ∧ r1.isActive = (ad.isActive || r0.isActive)) ∧
      (r0.id ≠ id → r1 = r0)) db.rows db2.rows := by
  unfold Repository.UpdateAd at h
  by_cases hc : db.rows.countP (fun r => r.id == id) == 0
  · simp [hc] at h
  · simp [hc] at h
    rw [← h]
    refine forall₂_map_self _ _ _ ?_
    intro r hr
    by_cases hid : r.id = id
    · refine ⟨?_, ?_, ?_, ?_⟩
      · simp [hid, updateRow]
      · simp [hid, updateRow]
      · intro _
        refine ⟨?_, ?_, ?_, ?_⟩ <;> simp [hid, updateRow]
        cases had : ad.isActive <;> simp
      · intro hne; exact absurd hid hne
    · have hbeq : (r.id == id) = false := beq_eq_false_iff_ne.mpr hid
      refine ⟨?_, ?_, ?_, ?_⟩ <;> simp [hbeq, hid]

/-- Witness for C6: applying the concrete update payload `sampleAd2`
(whose `isActive` is false) to the one-row store rewrites text and price
but preserves the stored `isActive`, `id` and `createdAt`. -/
theorem update_field_semantics_witness :
    List.Forall₂ (fun r0 r1 =>
      r1.id = r0.id ∧ r1.createdAt = r0.createdAt ∧
      (r0.id = 1 →
        r1.title = sampleAd2.title ∧ r1.description = sampleAd2.description ∧
        r1.price = sampleAd2.price ∧
        r1.isActive = (sampleAd2.isActive || r0.isActive)) ∧
      (r0.id ≠ 1 → r1 = r0))
      sampleState.db.rows [updateRow sampleAd2 sampleAd] :=
  update_field_semantics sampleState.db 1 sampleAd2
    { rows := [updateRow sampleAd2 sampleAd], nextId := 2, now := 7 } rfl

/-- C7: `Update(id, ad)` and `Delete(id)` fail with the `ErrAdNotFound`
sentinel exactly when the store call succeeds but affects zero rows; when
the store call itself fails they fail with a (non-NotFound) persistence
error; when at least one row is affected they succeed. -/
theorem update_delete_notFound_iff (f : Faults) (st : ServiceState)
    (id : Int) (ad : Ad) :
    ((AdService.UpdateAd f st id ad).1 = Except.error Err.errAdNotFound ↔
      f.dbFails = false ∧ st.db.rows.countP (fun r => r.id == id) = 0) ∧
    (f.dbFails = true →
      (AdService.UpdateAd f st id ad).1 = Except.error Err.persistence) ∧
    (f.dbFails = false → st.db.rows.countP (fun r => r.id == id) ≠ 0 →
      (AdService.UpdateAd f st id ad).1 = Except.ok ()) ∧
    ((AdService.DeleteAd f st id).1 = Except.error Err.errAdNotFound ↔
      f.dbFails = false ∧ st.db.rows.countP (fun r => r.id == id) = 0) ∧
    (f.dbFails = true →
      (AdService.DeleteAd f st id).1 = Except.error Err.persistence) ∧
    (f.dbFails = false → st.db.rows.countP (fun r => r.id == id) ≠ 0 →
      (AdService.DeleteAd f st id).1 = Except.ok ()) := by
  unfold AdService.UpdateAd AdService.DeleteAd
  unfold Repository.UpdateAd Repository.DeleteAd
  cases hdb : f.dbFails with
  | true => simp
  | false =>
      by_cases hc : st.db.rows.countP (fun r => r.id == id) = 0
      · simp [hc]
      · simp [hc]

/-- Witness for C7: updating the present id 1 succeeds, and deleting the
absent id 1 from the empty store fails with the `ErrAdNotFound` sentinel. -/
theorem update_delete_notFound_iff_witness :
    (AdService.UpdateAd noFaults sampleState 1 sampleAd2).1 = Except.ok () ∧
    (AdService.DeleteAd noFaults emptyState 1).1 =
      Except.error Err.errAdNotFound :=
  ⟨(update_delete_notFound_iff noFaults sampleState 1 sampleAd2).2.2.1 rfl
      (by decide),
   ((update_delete_notFound_iff noFaults emptyState 1 sampleAd2).2.2.2.1).mpr
      ⟨rfl, rfl⟩⟩

/-- C8: the handlers reject with 400, without any service call (no backend
call, state unchanged): a non-numeric or non-positive id, an unbindable
body, an empty title or description, a non-positive price, a `sort_by`
outside the five allowed columns, an `order` outside asc/desc, and a
non-numeric or non-positive page or limit; and they map service results so
that the operation's NotFound error yields 404 and any other service error
yields 500. -/
theorem handler_validation_and_status_mapping :
    (∀ f st, Handler.GetAdByID f st none = (400, st, [])) ∧
    (∀ f st id, id ≤ 0 → Handler.GetAdByID f st (some id) = (400, st, [])) ∧
    (∀ f st id, 0 < id →
      (AdService.GetAdByID f st id).1 = Except.error Err.sqlErrNoRows →
      (Handler.GetAdByID f st (some id)).1 = 404) ∧
    (∀ f st id e, 0 < id →
      (AdService.GetAdByID f st id).1 = Except.error e →
      e ≠ Err.sqlErrNoRows →
      (Handler.GetAdByID f st (some id)).1 = 500) ∧
    (∀ f st lp s o, Handler.GetAllAds f st none lp s o = (400, st, [])) ∧
    (∀ f st p lp s o, p ≤ 0 →
      Handler.GetAllAds f st (some p) lp s o = (400, st, [])) ∧
    (∀ f st p s o, 0 < p →
      Handler.GetAllAds f st (some p) none s o = (400, st, [])) ∧
    (∀ f st p l s o, 0 < p → l ≤ 0 →
      Handler.GetAllAds f st (some p) (some l) s o = (400, st, [])) ∧
    (∀ f st p l s o, 0 < p → 0 < l → validSortField s = false →
      Handler.GetAllAds f st (some p) (some l) s o = (400, st, [])) ∧
    (∀ f st p l s o, 0 < p → 0 < l → validSortField s = true →
      o ≠ "asc" → o ≠ "desc" →
      Handler.GetAllAds f st (some p) (some l) s o = (400, st, [])) ∧
    (∀ f st p l s o e, 0 < p → 0 < l → validSortField s = true →
      (o = "asc" ∨ o = "desc") →
      (AdService.GetAllAds f st p l s o).1 = Except.error e →
      (Handler.GetAllAds f st (some p) (some l) s o).1 = 500) ∧
    (∀ f st body, Handler.UpdateAd f st none body = (400, st, [])) ∧
    (∀ f st id body, id ≤ 0 →
      Handler.UpdateAd f st (some id) body = (400, st, [])) ∧
    (∀ f st id, 0 < id → Handler.UpdateAd f st (some id) none = (400, st, [])) ∧
    (∀ f st id ad, 0 < id → (ad.title = "" ∨ ad.description = "") →
      Handler.UpdateAd f st (some id) (some ad) = (400, st, [])) ∧
    (∀ f st id ad, 0 < id → ad.title ≠ "" → ad.description ≠ "" →
      ad.price ≤ 0 →
      Handler.UpdateAd f st (some id) (some ad) = (400, st, [])) ∧
    (∀ f st id ad, 0 < id → ad.title ≠ "" → ad.description ≠ "" →
      0 < ad.price →
      (AdService.UpdateAd f st id ad).1 = Except.error Err.errAdNotFound →
      (Handler.UpdateAd f st (some id) (some ad)).1 = 404) ∧
    (∀ f st id ad e, 0 < id → ad.title ≠ "" → ad.description ≠ "" →
      0 < ad.price →
      (AdService.UpdateAd f st id ad).1 = Except.error e →
      e ≠ Err.errAdNotFound →
      (Handler.UpdateAd f st (some id) (some ad)).1 = 500) := by
  refine ⟨?_, ?_, ?_, ?_, ?_, ?_, ?_, ?_, ?_, ?_, ?_, ?_, ?_, ?_, ?_, ?_, ?_, ?_⟩
  · intro f st; rfl
  · intro f st id hid
    unfold Handler.GetAdByID
    simp [hid]
  · intro f st id hid hsvc
    unfold Handler.GetAdByID
    rcases hg : AdService.GetAdByID f st id with ⟨res, st2, tr⟩
    rw [hg] at hsvc
    simp at hsvc
    subst hsvc
    simp [Int.not_le.mpr hid, hg]
  · intro f st id e hid hsvc hne
    unfold Handler.GetAdByID
    rcases hg : AdService.GetAdByID f st id with ⟨res, st2, tr⟩
    rw [hg] at hsvc
    simp at hsvc
    subst hsvc
    cases e with
    | sqlErrNoRows => exact absurd rfl hne
    | errAdNotFound => simp [Int.not_le.mpr hid, hg]
    | persistence => simp [Int.not_le.mpr hid, hg]
  · intro f st lp s o; rfl
  · intro f st p lp s o hp
    unfold Handler.GetAllAds
    simp [hp]
  · intro f st p s o hp
    unfold Handler.GetAllAds
    simp [Int.not_le.mpr hp]
  · intro f st p l s o hp hl
    unfold Handler.GetAllAds
    simp [Int.not_le.mpr hp, hl]
  · intro f st p l s o hp hl hs
    unfold Handler.GetAllAds
    simp [Int.not_le.mpr hp, Int.not_le.mpr hl, hs]
  · intro f st p l s o hp hl hs ho1 ho2
    unfold Handler.GetAllAds
    simp [Int.not_le.mpr hp, Int.not_le.mpr hl, hs, ho1, ho2]
  · intro f st p l s o e hp hl hs ho hsvc
    unfold Handler.GetAllAds
    rcases hg : AdService.GetAllAds f st p l s o with ⟨res, st2, tr⟩
    rw [hg] at hsvc
    simp at hsvc
    subst hsvc
    rcases ho with ho | ho <;> subst ho <;>
      simp [Int.not_le.mpr hp, Int.not_le.mpr hl, hs, hg]
  · intro f st body; rfl
  · intro f st id body hid
    unfold Handler.UpdateAd
    simp [hid]
  · intro f st id hid
    unfold Handler.UpdateAd
    simp [Int.not_le.mpr hid]
  · intro f st id ad hid hbad
    unfold Handler.UpdateAd
    rcases hbad with hbad | hbad <;>
      simp [Int.not_le.mpr hid, hbad]
  · intro f st id ad hid ht hd hp
    unfold Handler.UpdateAd
    simp [Int.not_le.mpr hid, ht, hd, hp]
  · intro f st id ad hid ht hd hp hsvc
    unfold Handler.UpdateAd
    rcases hg : AdService.UpdateAd f st id ad with ⟨res, st2, tr⟩
    rw [hg] at hsvc
    simp at hsvc
    subst hsvc
    simp [Int.not_le.mpr hid, ht, hd, Int.not_le.mpr hp, hg]
  · intro f st id ad e hid ht hd hp hsvc hne
    unfold Handler.UpdateAd
    rcases hg : AdService.UpdateAd f st id ad with ⟨res, st2, tr⟩
    rw [hg] at hsvc
    simp at hsvc
    subst hsvc
    cases e with
    | errAdNotFound => exact absurd rfl hne
    | sqlErrNoRows => simp [Int.not_le.mpr hid, ht, hd, Int.not_le.mpr hp, hg]
    | persistence => simp [Int.not_le.mpr hid, ht, hd, Int.not_le.mpr hp, hg]

/-- Witness for C8: at concrete inputs, a non-positive id is rejected with
400 and no backend call, and `Get` of the absent id 1 in the empty backend
is mapped to 404. -/
theorem handler_validation_and_status_mapping_witness :
    Handler.GetAdByID noFaults sampleState (some 0) = (400, sampleState, []) ∧
    (Handler.GetAdByID noFaults emptyState (some 1)).1 = 404 :=
  ⟨handler_validation_and_status_mapping.2.1 noFaults sampleState 0 (by decide),
   handler_validation_and_status_mapping.2.2.1 noFaults emptyState 1
     (by decide) rfl⟩

/-- C9: the not-found condition surfaces as two distinct error values:
`Get` of a missing id returns the database sentinel `sql.ErrNoRows`, while
`Update` and `Delete` of a missing id return the service-defined sentinel
`ErrAdNotFound`, and the two sentinels are different errors. -/
theorem notFound_two_sentinels (f : Faults) (st : ServiceState) (id : Int)
    (ad : Ad)
    (hdb : f.dbFails = false)
    (hmiss : cacheHit f.cacheGetFails st.cache (adKey id) = none)
    (hnone : st.db.rows.find? (fun r => r.id == id) = none) :
    (AdService.GetAdByID f st id).1 = Except.error Err.sqlErrNoRows ∧
    (AdService.UpdateAd f st id ad).1 = Except.error Err.errAdNotFound ∧
    (AdService.DeleteAd f st id).1 = Except.error Err.errAdNotFound ∧
    Err.sqlErrNoRows ≠ Err.errAdNotFound := by
  have hcount : st.db.rows.countP (fun r => r.id == id) = 0 :=
    List.countP_eq_zero.mpr (List.find?_eq_none.mp hnone)
  refine ⟨?_, ?_, ?_, fun h => Err.noConfusion h⟩
  · rw [getAdByID_miss_eq f st id hmiss]
    simp [Repository.GetAdByID, hdb, hnone]
  · unfold AdService.UpdateAd Repository.UpdateAd
    simp [hdb, hcount]
  · unfold AdService.DeleteAd Repository.DeleteAd
    simp [hdb, hcount]

/-- Witness for C9: for the concrete missing id 1 in the empty backend,
`Get` returns `sql.ErrNoRows` while `Update` and `Delete` return
`ErrAdNotFound`. -/
theorem notFound_two_sentinels_witness :
    (AdService.GetAdByID noFaults emptyState 1).1 =
      Except.error Err.sqlErrNoRows ∧
    (AdService.UpdateAd noFaults emptyState 1 sampleAd2).1 =
      Except.error Err.errAdNotFound ∧
    (AdService.DeleteAd noFaults emptyState 1).1 =
      Except.error Err.errAdNotFound ∧
    Err.sqlErrNoRows ≠ Err.errAdNotFound :=
  notFound_two_sentinels noFaults emptyState 1 sampleAd2 rfl rfl rfl

/-- Inserting into a sorted list adds exactly one element. -/
theorem insertSorted_length (le : Ad → Ad → Bool) (a : Ad) (l : List Ad) :
    (insertSorted le a l).length = l.length + 1 := by
  induction l with
  | nil => rfl
  | cons b rest ih =>
      unfold insertSorted
      by_cases h : le a b = true
      · simp [h]
      · simp [h, ih]

/-- Sorting preserves the number of rows. -/
theorem sortAds_length (le : Ad → Ad → Bool) (l : List Ad) :
    (sortAds le l).length = l.length := by
  induction l with
  | nil => rfl
  | cons a rest ih =>
      unfold sortAds
      rw [insertSorted_length, ih]
      simp

/-- C10: when the list query matches zero records — an empty store, or a
page starting beyond the last record — `GetAllAds` succeeds with the empty
list rather than an error or a null result. -/
theorem getAllAds_empty_result (f : Faults) (st : ServiceState)
    (page limit : Int) (sortBy order : String)
    (hdb : f.dbFails = false) :
    (st.db.rows = [] →
      (AdService.GetAllAds f st page limit sortBy order).1 = Except.ok []) ∧
    (st.db.rows.length ≤ ((page - 1) * limit).toNat →
      (AdService.GetAllAds f st page limit sortBy order).1 = Except.ok []) := by
  constructor
  · intro hrows
    unfold AdService.GetAllAds Repository.GetAllAds
    simp [hdb, hrows, sortAds]
  · intro hlen
    unfold AdService.GetAllAds Repository.GetAllAds
    have hdrop : ∀ le : Ad → Ad → Bool,
        (sortAds le st.db.rows).drop ((page - 1) * limit).toNat = [] := by
      intro le
      exact List.drop_eq_nil_of_le (by rw [sortAds_length]; exact hlen)
    simp [hdb, hdrop]

/-- Witness for C10: listing page 5 of the concrete empty store with
`sort_by=price, order=desc` succeeds with the empty list. -/
theorem getAllAds_empty_result_witness :
    (AdService.GetAllAds noFaults emptyState 5 10 "price" "desc").1 =
      Except.ok [] :=
  (getAllAds_empty_result noFaults emptyState 5 10 "price" "desc" rfl).1 rfl
